import Mathlib

/-!
Verification of the pilot-skills-trainer signal-processing core.

This file shallowly embeds the metric reducers, stimulus/target generators
and the adaptive difficulty controller of the repository and proves (or
refutes) the frozen specification claims about them.

Conventions of the embedding:
* JavaScript numbers are modelled as exact rationals (`ℚ`) on code paths
  that only use field arithmetic and comparisons; as real numbers (`ℝ`)
  where `Math.sqrt` / `Math.log` / `Math.sin` / `Math.cos` are involved;
  and as `JSNum` (a rational extended with `NaN` / `±Infinity`) where the
  behaviour of IEEE special values is the point of the claim.
* Stateful generator classes become explicit state records plus a `step`
  function; `Math.random()` draws become an explicit input stream.
-/

namespace PilotTrainer

/-! ## Audio stimulus response window (src/utils/audioStimulus.ts) -/

/-- `getResponseWindow` of `audioStimulus.ts`: the auditory response window
as a `(min, max)` pair, `maxResponseTime = 1200 - difficulty * 400`. -/
def getResponseWindow (difficulty : ℚ) : ℚ × ℚ :=
  (100, 1200 - difficulty * 400)

/-! ## Adaptive difficulty controller (TrainingPage, `adjustDifficulty`) -/

/-- The parts of `trial.metrics` read by `adjustDifficulty`: the 1D/2D
tracking branch only reads `tracking.rmse`, the spatial branch only reads
`spatial.accuracy`; `none` models an absent field. -/
structure TrialMetrics where
  tracking : Option ℚ
  spatial : Option ℚ
  deriving DecidableEq

/-- `adjustDifficulty` of the training page: given the current difficulty
and the trial metrics, the new difficulty (`setCurrentDifficulty` value).
Tracking branch: success iff `rmse < 0.3 / (1 + difficulty)`, then
`min 1 (d + 0.05)` on success else `max 0.1 (d - 0.05)`. Spatial branch:
band `[0.70, 0.85]`, `±0.05` clamped outside the band, unchanged inside.
Other modules leave the difficulty unchanged. -/
def adjustDifficulty (currentDifficulty : ℚ) (m : TrialMetrics) : ℚ :=
  match m.tracking with
  | some rmse =>
      let threshold := (3/10) / (1 + currentDifficulty)
      if rmse < threshold then
        min 1 (currentDifficulty + 5/100)
      else
        max (1/10) (currentDifficulty - 5/100)
  | none =>
      match m.spatial with
      | some accuracy =>
          if accuracy > 85/100 then
            min 1 (currentDifficulty + 5/100)
          else if accuracy < 70/100 then
            max (1/10) (currentDifficulty - 5/100)
          else
            currentDifficulty
      | none => currentDifficulty

/-! ## A JavaScript number model with IEEE special values

The multitask cost metrics divide by baseline RMSE values with no guard,
so the embedding must retain `NaN` and `±Infinity`. Finite values are
exact rationals. -/

/-- A JavaScript number: a finite (rational) value, `NaN`, `Infinity` or
`-Infinity`. Only the positive zero is modelled, matching values that
arise as RMSEs. -/
inductive JSNum where
  | fin (q : ℚ)
  | nan
  | inf
  | ninf
  deriving DecidableEq

namespace JSNum

/-- JavaScript addition on the model. -/
def add : JSNum → JSNum → JSNum
  | fin a, fin b => fin (a + b)
  | nan, _ => nan
  | _, nan => nan
  | inf, ninf => nan
  | ninf, inf => nan
  | inf, _ => inf
  | _, inf => inf
  | ninf, _ => ninf
  | _, ninf => ninf

/-- JavaScript negation on the model. -/
def neg : JSNum → JSNum
  | fin a => fin (-a)
  | nan => nan
  | inf => ninf
  | ninf => inf

/-- JavaScript subtraction on the model. -/
def sub (x y : JSNum) : JSNum := x.add y.neg

/-- JavaScript division on the model: `0/0 = NaN`, `x/0 = ±Infinity` for
finite nonzero `x`, `x/±Infinity = 0` for finite `x`,
`±Infinity/±Infinity = NaN`. -/
def div : JSNum → JSNum → JSNum
  | nan, _ => nan
  | _, nan => nan
  | inf, inf => nan
  | inf, ninf => nan
  | ninf, inf => nan
  | ninf, ninf => nan
  | inf, fin b => if b < 0 then ninf else inf
  | ninf, fin b => if b < 0 then inf else ninf
  | fin _, inf => fin 0
  | fin _, ninf => fin 0
  | fin a, fin b =>
      if b = 0 then
        if a = 0 then nan else if a > 0 then inf else ninf
      else fin (a / b)

/-- JavaScript absolute value on the model. -/
def abs : JSNum → JSNum
  | fin a => fin |a|
  | nan => nan
  | inf => inf
  | ninf => inf

/-- `true` iff the value is neither `NaN` nor `±Infinity`. -/
def isFinite : JSNum → Bool
  | fin _ => true
  | _ => false

end JSNum

/-! ## Multitask metrics (metricsCalculationMultitask, Module E) -/

/-- The field of a `TrackingMetrics` record that the multitask cost
computations read: `calculateMultitaskMetrics` and
`calculateTripleTaskMetrics` only access `.rmse` of their tracking
inputs, so the embedding carries exactly that field. -/
structure RmseMetrics where
  rmse : JSNum
  deriving DecidableEq

/-- `MultitaskMetricsInput` of the multitask metrics module. -/
structure MultitaskMetricsInput where
  baseline1D : RmseMetrics
  baseline2D : RmseMetrics
  dual1D : RmseMetrics
  dual2D : RmseMetrics
  deriving DecidableEq

/-- `MultitaskMetrics` output record. -/
structure MultitaskMetrics where
  dualTaskCost : JSNum
  baselineRMSE : JSNum
  dualRMSE : JSNum
  deriving DecidableEq

/-- `calculateMultitaskMetrics`: dual-task cost
`((dual1D.rmse - baseline1D.rmse) / baseline1D.rmse
  + (dual2D.rmse - baseline2D.rmse) / baseline2D.rmse) / 2`,
with no special case for a zero denominator. -/
def calculateMultitaskMetrics (input : MultitaskMetricsInput) : MultitaskMetrics :=
  let cost1D := (input.dual1D.rmse.sub input.baseline1D.rmse).div input.baseline1D.rmse
  let cost2D := (input.dual2D.rmse.sub input.baseline2D.rmse).div input.baseline2D.rmse
  let dualTaskCost := (cost1D.add cost2D).div (JSNum.fin 2)
  let baselineRMSE := (input.baseline1D.rmse.add input.baseline2D.rmse).div (JSNum.fin 2)
  let dualRMSE := (input.dual1D.rmse.add input.dual2D.rmse).div (JSNum.fin 2)
  { dualTaskCost := dualTaskCost, baselineRMSE := baselineRMSE, dualRMSE := dualRMSE }

/-- The `dualMotorCost` computation of `calculateTripleTaskMetrics`
(metricsCalculationTripleTask.ts, lines 62-68): it depends only on the
four RMSE values; `(tripleMotorRMSE - dualBaselineRMSE) / dualBaselineRMSE`
where each is the average of the 1D and 2D values, with no special case
for a zero denominator. -/
def dualMotorCost (metrics1D metrics2D baseline1D baseline2D : RmseMetrics) : JSNum :=
  let dualBaselineRMSE := (baseline1D.rmse.add baseline2D.rmse).div (JSNum.fin 2)
  let tripleMotorRMSE := (metrics1D.rmse.add metrics2D.rmse).div (JSNum.fin 2)
  (tripleMotorRMSE.sub dualBaselineRMSE).div dualBaselineRMSE

/-- The `auditoryCost` computation of `calculateTripleTaskMetrics`
(metricsCalculationTripleTask.ts, lines 72-75): guarded —
`(metricsAudio.dPrime - baselineAudio.dPrime) / |baselineAudio.dPrime|`
when the baseline d-prime is not 0, and `0` otherwise. -/
def auditoryCost (metricsAudioDPrime baselineAudioDPrime : JSNum) : JSNum :=
  if baselineAudioDPrime ≠ JSNum.fin 0 then
    (metricsAudioDPrime.sub baselineAudioDPrime).div baselineAudioDPrime.abs
  else
    JSNum.fin 0

/-! ## Tracking metrics reducer (metricsCalculation.ts) -/

/-- One tracking sample, as in `metricsCalculation.ts`. -/
structure TrackingSample where
  timestamp : ℚ
  targetPosition : ℚ
  cursorPosition : ℚ
  inputValue : ℚ
  deriving DecidableEq

/-- The `TrackingMetrics` record. `rmse` is a real number because the
source computes it with `Math.sqrt`; every other field is rational. -/
structure TrackingMetrics where
  mae : ℚ
  rmse : ℝ
  timeOnTarget : ℚ
  overshootCount : ℕ
  overshootMagnitude : ℚ
  smoothness : ℚ

/-- `Math.sign`: `1` for positive, `-1` for negative, `0` for zero. -/
def jsSign (q : ℚ) : ℚ :=
  if 0 < q then 1 else if q < 0 then -1 else 0

/-- The per-sample error sequence `targetPosition - cursorPosition`. -/
def trackingErrors (samples : List TrackingSample) : List ℚ :=
  samples.map (fun s => s.targetPosition - s.cursorPosition)

/-- The overshoot magnitudes collected by the detection loop of
`calculateTrackingMetrics`: for each `i ≥ 1` with
`Math.sign(errors[i]) !== Math.sign(errors[i-1])` and
`|errors[i]| > targetThreshold`, the magnitude `|errors[i]|`. -/
def overshootList (targetThreshold : ℚ) (errors : List ℚ) : List ℚ :=
  (errors.zip errors.tail).filterMap fun pc =>
    if jsSign pc.2 ≠ jsSign pc.1 ∧ |pc.2| > targetThreshold then some |pc.2| else none

/-- `calculateSmoothness`: total variation of `inputValue` divided by
`samples.length - 1`; `0` for fewer than two samples. -/
def calculateSmoothness (samples : List TrackingSample) : ℚ :=
  if samples.length < 2 then 0
  else
    let inputs := samples.map (·.inputValue)
    ((inputs.zip inputs.tail).map fun pc => |pc.2 - pc.1|).sum /
      ((samples.length : ℚ) - 1)

/-- `calculateTrackingMetrics`: MAE, RMSE, time-on-target percentage,
overshoot count/magnitude and smoothness; the all-zero record on empty
input. -/
noncomputable def calculateTrackingMetrics
    (samples : List TrackingSample) (targetThreshold : ℚ := 1/20) :
    TrackingMetrics :=
  if samples = [] then
    { mae := 0, rmse := 0, timeOnTarget := 0, overshootCount := 0,
      overshootMagnitude := 0, smoothness := 0 }
  else
    let errors := trackingErrors samples
    let n : ℚ := samples.length
    let mae := (errors.map (fun e => |e|)).sum / n
    let rmse := Real.sqrt (((errors.map (fun e => e * e)).sum / n : ℚ) : ℝ)
    let onTarget := (errors.filter (fun e => |e| ≤ targetThreshold)).length
    let overshoots := overshootList targetThreshold errors
    let overshootCount := overshoots.length
    { mae := mae
      rmse := rmse
      timeOnTarget := ((onTarget : ℚ) / n) * 100
      overshootCount := overshootCount
      overshootMagnitude :=
        if overshootCount > 0 then overshoots.sum / (overshootCount : ℚ) else 0
      smoothness := calculateSmoothness samples }

/-! ## Attention metrics reducer (attentionMetrics.ts) -/

/-- One attention (go/no-go) response record. -/
structure AttentionResponse where
  stimulusTimestamp : ℚ
  responseTimestamp : Option ℚ
  isTarget : Bool
  responded : Bool
  reactionTime : Option ℚ
  deriving DecidableEq

/-- The `AttentionMetrics` record; `dPrime` is real (it is computed with
`Math.sqrt` / `Math.log`), the rest rational. -/
structure AttentionMetrics where
  hitRate : ℚ
  missRate : ℚ
  falseAlarmRate : ℚ
  dPrime : ℝ
  reactionTimes : List ℚ
  meanRT : ℚ
  medianRT : ℚ

/-- `correctRate`: replaces an extreme rate 0 by 0.01 and 1 by 0.99,
leaving every other rate unchanged. -/
def correctRate (rate : ℚ) : ℚ :=
  if rate = 0 then 1/100 else if rate = 1 then 99/100 else rate

/-- `inverseNormalCDF`: the Beasley-Springer-Moro / Acklam rational
approximation of the standard normal quantile, with tails driven by
`Math.sqrt(-2 * Math.log p)` and hard clamps to `-6` / `6` outside
`(0, 1)`. -/
noncomputable def inverseNormalCDF (p : ℝ) : ℝ :=
  if p ≤ 0 then -6
  else if 1 ≤ p then 6
  else
    let pLow : ℝ := 0.02425
    let pHigh : ℝ := 1 - pLow
    if p < pLow then
      let q := Real.sqrt (-2 * Real.log p)
      (((((-0.007784894002430293 * q + -0.3223964580411365) * q +
          -2.400758277161838) * q + -2.549732539343734) * q +
          4.374664141464968) * q + 2.938163982698783) /
        ((((0.007784695709041462 * q + 0.3224671290700398) * q +
          2.445134137142996) * q + 3.754408661907416) * q + 1)
    else if p ≤ pHigh then
      let q := p - 0.5
      let r := q * q
      (((((-39.69683028665376 * r + 220.9460984245205) * r +
          -275.9285104469687) * r + 138.3577518672690) * r +
          -30.66479806614716) * r + 2.506628277459239) * q /
        (((((-54.47609879822406 * r + 161.5858368580409) * r +
          -155.6989798598866) * r + 66.80131188771972) * r +
          -13.28068155288572) * r + 1)
    else
      let q := Real.sqrt (-2 * Real.log (1 - p))
      let num := -(((((-0.007784894002430293 * q + -0.3223964580411365) * q +
          -2.400758277161838) * q + -2.549732539343734) * q +
          4.374664141464968) * q + 2.938163982698783)
      let den := ((((0.007784695709041462 * q + 0.3224671290700398) * q +
          2.445134137142996) * q + 3.754408661907416) * q + 1)
      num / den

/-- `calculateDPrime`: `Z(correctedHitRate) - Z(correctedFalseAlarmRate)`. -/
noncomputable def calculateDPrime (hitRate falseAlarmRate : ℚ) : ℝ :=
  inverseNormalCDF ((correctRate hitRate : ℚ) : ℝ) -
    inverseNormalCDF ((correctRate falseAlarmRate : ℚ) : ℝ)

/-- `calculateMedian`: middle of the ascending sort (mean of the two
middle values for even length). -/
def calculateMedian (values : List ℚ) : ℚ :=
  let sorted := values.mergeSort (· ≤ ·)
  let mid := sorted.length / 2
  if sorted.length % 2 = 0 then
    (sorted.getD (mid - 1) 0 + sorted.getD mid 0) / 2
  else
    sorted.getD mid 0

/-- `calculateAttentionMetrics`: hit/miss/false-alarm rates, d-prime and
reaction-time statistics; the all-zero record with empty `reactionTimes`
on empty input. -/
noncomputable def calculateAttentionMetrics
    (responses : List AttentionResponse) : AttentionMetrics :=
  if responses = [] then
    { hitRate := 0, missRate := 0, falseAlarmRate := 0, dPrime := 0,
      reactionTimes := [], meanRT := 0, medianRT := 0 }
  else
    let targetTrials := responses.filter (·.isTarget)
    let nonTargetTrials := responses.filter (fun r => !r.isTarget)
    let hits := (targetTrials.filter (·.responded)).length
    let misses := (targetTrials.filter (fun r => !r.responded)).length
    let falseAlarms := (nonTargetTrials.filter (·.responded)).length
    let hitRate :=
      if targetTrials.length > 0 then (hits : ℚ) / targetTrials.length else 0
    let missRate :=
      if targetTrials.length > 0 then (misses : ℚ) / targetTrials.length else 0
    let falseAlarmRate :=
      if nonTargetTrials.length > 0 then
        (falseAlarms : ℚ) / nonTargetTrials.length
      else 0
    let dPrime := calculateDPrime hitRate falseAlarmRate
    let reactionTimes := responses.filterMap (·.reactionTime)
    let meanRT :=
      if reactionTimes.length > 0 then
        reactionTimes.sum / reactionTimes.length
      else 0
    let medianRT :=
      if reactionTimes.length > 0 then calculateMedian reactionTimes else 0
    { hitRate := hitRate, missRate := missRate,
      falseAlarmRate := falseAlarmRate, dPrime := dPrime,
      reactionTimes := reactionTimes, meanRT := meanRT, medianRT := medianRT }

/-! ## 1D target generators (targetGeneration.ts)

Each generator class becomes a config record, a state record, an `init`
and an `update`; `Math.random()` draws are explicit `ℝ` inputs (one per
call site), and `run` folds `update` over a list of `(dt, draw)` steps
exactly as a sequence of `update(dt)` calls would. -/

/-- `TargetGeneratorConfig`: bounds `(min, max)` and difficulty. -/
structure TargetGeneratorConfig where
  boundsMin : ℝ
  boundsMax : ℝ
  difficulty : ℝ

namespace OrnsteinUhlenbeck

/-- Constructor-derived mean `mu = (bounds[0] + bounds[1]) / 2`. -/
noncomputable def mu (cfg : TargetGeneratorConfig) : ℝ :=
  (cfg.boundsMin + cfg.boundsMax) / 2

/-- Constructor-derived `theta = 0.5 + difficulty * 1.5`. -/
noncomputable def theta (cfg : TargetGeneratorConfig) : ℝ :=
  0.5 + cfg.difficulty * 1.5

/-- Constructor-derived `sigma = 0.3 + difficulty * 0.7`. -/
noncomputable def sigma (cfg : TargetGeneratorConfig) : ℝ :=
  0.3 + cfg.difficulty * 0.7

/-- Constructor: the state `x` starts at `mu`. -/
noncomputable def init (cfg : TargetGeneratorConfig) : ℝ := mu cfg

/-- `OrnsteinUhlenbeckGenerator.update`: Euler step of the OU process,
then clamp to the bounds. The returned value and the stored `x` agree. -/
noncomputable def update (cfg : TargetGeneratorConfig) (x : ℝ)
    (dt rand : ℝ) : ℝ :=
  let noise := (rand - 0.5) * 2
  let dx := theta cfg * (mu cfg - x) * dt + sigma cfg * Real.sqrt dt * noise
  let x1 := x + dx
  if x1 < cfg.boundsMin then cfg.boundsMin
  else if x1 > cfg.boundsMax then cfg.boundsMax
  else x1

/-- A sequence of `update(dt)` calls from the initial state; each step
carries its `dt` and its `Math.random()` draw. -/
noncomputable def run (cfg : TargetGeneratorConfig)
    (steps : List (ℝ × ℝ)) : ℝ :=
  steps.foldl (fun x s => update cfg x s.1 s.2) (init cfg)

end OrnsteinUhlenbeck

namespace Sinusoid

/-- Constructor-derived amplitude `range * 0.4`. -/
noncomputable def amplitude (cfg : TargetGeneratorConfig) : ℝ :=
  (cfg.boundsMax - cfg.boundsMin) * 0.4

/-- Constructor-derived center `(bounds[0] + bounds[1]) / 2`. -/
noncomputable def center (cfg : TargetGeneratorConfig) : ℝ :=
  (cfg.boundsMin + cfg.boundsMax) / 2

/-- Constructor-derived base frequency `0.3 + difficulty * 0.7`. -/
noncomputable def baseFreq (cfg : TargetGeneratorConfig) : ℝ :=
  0.3 + cfg.difficulty * 0.7

/-- The position formula shared by `update` and `getPosition`: weighted
sum of three sinusoids at frequencies `[f, f*1.618, f*0.5]`, weights
`1/(i+1)`, normalized by `1 + 1/2 + 1/3`, scaled and recentered. The
three phases are the constructor's `Math.random() * 2π` draws. -/
noncomputable def position (cfg : TargetGeneratorConfig)
    (phase0 phase1 phase2 t : ℝ) : ℝ :=
  let f := baseFreq cfg
  let sum :=
    1 * Real.sin (2 * Real.pi * f * t + phase0) +
    1/2 * Real.sin (2 * Real.pi * (f * 1.618) * t + phase1) +
    1/3 * Real.sin (2 * Real.pi * (f * 0.5) * t + phase2)
  let normalizedSum := sum / (1 + 1/2 + 1/3)
  center cfg + amplitude cfg * normalizedSum

/-- `SinusoidGenerator.update`: advances `t` by `dt` and returns the
clamped position (the stored state is only `t`; `getPosition` returns
`position` unclamped). -/
noncomputable def update (cfg : TargetGeneratorConfig)
    (phase0 phase1 phase2 t dt : ℝ) : ℝ × ℝ :=
  let t1 := t + dt
  (max cfg.boundsMin (min cfg.boundsMax (position cfg phase0 phase1 phase2 t1)),
   t1)

end Sinusoid

namespace Piecewise

/-- `PiecewiseGenerator` state: position, velocity, acceleration and the
time since the last acceleration change. -/
structure State where
  x : ℝ
  v : ℝ
  a : ℝ
  timeSinceAccelChange : ℝ

/-- Constructor-derived `maxAccel = 0.5 + difficulty * 1.5`. -/
noncomputable def maxAccel (cfg : TargetGeneratorConfig) : ℝ :=
  0.5 + cfg.difficulty * 1.5

/-- Constructor-derived `maxJerk = 2.0 + difficulty * 4.0`. -/
noncomputable def maxJerk (cfg : TargetGeneratorConfig) : ℝ :=
  2.0 + cfg.difficulty * 4.0

/-- Constructor-derived `accelChangePeriod = 0.5 / (1 + difficulty)`. -/
noncomputable def accelChangePeriod (cfg : TargetGeneratorConfig) : ℝ :=
  0.5 / (1 + cfg.difficulty)

/-- Constructor: start at the midpoint at rest. -/
noncomputable def init (cfg : TargetGeneratorConfig) : State :=
  { x := (cfg.boundsMin + cfg.boundsMax) / 2, v := 0, a := 0,
    timeSinceAccelChange := 0 }

/-- `Math.sign` on the reals. -/
noncomputable def signR (x : ℝ) : ℝ :=
  if 0 < x then 1 else if x < 0 then -1 else 0

/-- `PiecewiseGenerator.update`: periodically retargets the acceleration
under a jerk limit, integrates velocity and position, and bounces off the
walls (clamping the position into the bounds). The source's simultaneous
assignments are written as one conditional per component. -/
noncomputable def update (cfg : TargetGeneratorConfig) (st : State)
    (dt rand : ℝ) : State :=
  let tAccel := st.timeSinceAccelChange + dt
  let targetAccel := (rand - 0.5) * 2 * maxAccel cfg
  let jerk := signR (targetAccel - st.a) * maxJerk cfg
  let a1 :=
    if tAccel ≥ accelChangePeriod cfg then
      max (-(maxAccel cfg)) (min (maxAccel cfg) (st.a + jerk * dt))
    else st.a
  let tAccel1 := if tAccel ≥ accelChangePeriod cfg then (0 : ℝ) else tAccel
  let v1 := st.v + a1 * dt
  let x1 := st.x + v1 * dt
  if x1 < cfg.boundsMin then
    { x := cfg.boundsMin, v := |v1| * 0.8, a := a1,
      timeSinceAccelChange := tAccel1 }
  else if x1 > cfg.boundsMax then
    { x := cfg.boundsMax, v := -|v1| * 0.8, a := a1,
      timeSinceAccelChange := tAccel1 }
  else
    { x := x1, v := v1, a := a1, timeSinceAccelChange := tAccel1 }

/-- A sequence of `update(dt)` calls from the initial state. -/
noncomputable def run (cfg : TargetGeneratorConfig)
    (steps : List (ℝ × ℝ)) : State :=
  steps.foldl (fun st s => update cfg st s.1 s.2) (init cfg)

end Piecewise

/-! ## 2D target generators (targetGeneration2D.ts) -/

/-- `TargetGenerator2DConfig` bounds and difficulty. -/
structure TargetGenerator2DConfig where
  xMin : ℝ
  xMax : ℝ
  yMin : ℝ
  yMax : ℝ
  difficulty : ℝ

namespace Momentum

/-- `MomentumGenerator` state: position and velocity. -/
structure State where
  x : ℝ
  y : ℝ
  vx : ℝ
  vy : ℝ

/-- Constructor-derived `maxSpeed = 0.3 + difficulty * 0.7`. -/
noncomputable def maxSpeed (cfg : TargetGenerator2DConfig) : ℝ :=
  0.3 + cfg.difficulty * 0.7

/-- Constructor-derived `acceleration = 0.5 + difficulty * 1.5`. -/
noncomputable def acceleration (cfg : TargetGenerator2DConfig) : ℝ :=
  0.5 + cfg.difficulty * 1.5

/-- Constructor: start at the center at rest. -/
noncomputable def init (cfg : TargetGenerator2DConfig) : State :=
  { x := (cfg.xMin + cfg.xMax) / 2, y := (cfg.yMin + cfg.yMax) / 2,
    vx := 0, vy := 0 }

/-- The velocity computation of `MomentumGenerator.update`: random
acceleration, damping 0.95, then the speed limit. -/
noncomputable def newVelocity (cfg : TargetGenerator2DConfig) (st : State)
    (dt rand1 rand2 : ℝ) : ℝ × ℝ :=
  let ax := (rand1 - 0.5) * 2 * acceleration cfg
  let ay := (rand2 - 0.5) * 2 * acceleration cfg
  let vx1 := (st.vx + ax * dt) * 0.95
  let vy1 := (st.vy + ay * dt) * 0.95
  let speed := Real.sqrt (vx1 * vx1 + vy1 * vy1)
  if speed > maxSpeed cfg then
    (vx1 / speed * maxSpeed cfg, vy1 / speed * maxSpeed cfg)
  else (vx1, vy1)

/-- `MomentumGenerator.update`: the limited velocity (`newVelocity`),
integration, then a bounce off each wall that clamps the coordinate into
its bounds. The source's simultaneous assignments are written as one
conditional per component. -/
noncomputable def update (cfg : TargetGenerator2DConfig) (st : State)
    (dt rand1 rand2 : ℝ) : State :=
  let vx2 := (newVelocity cfg st dt rand1 rand2).1
  let vy2 := (newVelocity cfg st dt rand1 rand2).2
  let x1 := st.x + vx2 * dt
  let y1 := st.y + vy2 * dt
  let x2 := if x1 < cfg.xMin then cfg.xMin
    else if x1 > cfg.xMax then cfg.xMax else x1
  let vx3 := if x1 < cfg.xMin then |vx2| * 0.8
    else if x1 > cfg.xMax then -|vx2| * 0.8 else vx2
  let y2 := if y1 < cfg.yMin then cfg.yMin
    else if y1 > cfg.yMax then cfg.yMax else y1
  let vy3 := if y1 < cfg.yMin then |vy2| * 0.8
    else if y1 > cfg.yMax then -|vy2| * 0.8 else vy2
  { x := x2, y := y2, vx := vx3, vy := vy3 }

/-- A sequence of `update(dt)` calls from the initial state; each step
carries `dt` and the two `Math.random()` draws. -/
noncomputable def run (cfg : TargetGenerator2DConfig)
    (steps : List (ℝ × ℝ × ℝ)) : State :=
  steps.foldl (fun st s => update cfg st s.1 s.2.1 s.2.2) (init cfg)

end Momentum

namespace Curvilinear

/-- `CurvilinearGenerator` state: position, heading, angular velocity and
time since the last direction change. -/
structure State where
  x : ℝ
  y : ℝ
  angle : ℝ
  angularVelocity : ℝ
  timeSinceDirectionChange : ℝ

/-- Constructor-derived `speed = 0.3 + difficulty * 0.5`. -/
noncomputable def speed (cfg : TargetGenerator2DConfig) : ℝ :=
  0.3 + cfg.difficulty * 0.5

/-- Constructor-derived `maxCurvature = 1.0 + difficulty * 2.0`. -/
noncomputable def maxCurvature (cfg : TargetGenerator2DConfig) : ℝ :=
  1.0 + cfg.difficulty * 2.0

/-- Constructor-derived `directionChangePeriod = 0.5 / (1 + difficulty)`. -/
noncomputable def directionChangePeriod (cfg : TargetGenerator2DConfig) : ℝ :=
  0.5 / (1 + cfg.difficulty)

/-- Constructor: start at the center with a random heading (`initAngle`
is the constructor's `Math.random() * 2π` draw). -/
noncomputable def init (cfg : TargetGenerator2DConfig) (initAngle : ℝ) :
    State :=
  { x := (cfg.xMin + cfg.xMax) / 2, y := (cfg.yMin + cfg.yMax) / 2,
    angle := initAngle, angularVelocity := 0,
    timeSinceDirectionChange := 0 }

/-- `CurvilinearGenerator.update`: periodically redraws the angular
velocity, advances the heading, moves along it, and reflects at each wall
(clamping the coordinate into its bounds and flipping the heading). The
source's simultaneous assignments are written as one conditional per
component. -/
noncomputable def update (cfg : TargetGenerator2DConfig) (st : State)
    (dt rand : ℝ) : State :=
  let tDir := st.timeSinceDirectionChange + dt
  let av1 :=
    if tDir ≥ directionChangePeriod cfg then
      (rand - 0.5) * 2 * maxCurvature cfg
    else st.angularVelocity
  let tDir1 := if tDir ≥ directionChangePeriod cfg then (0 : ℝ) else tDir
  let angle1 := st.angle + av1 * dt
  let x1 := st.x + Real.cos angle1 * speed cfg * dt
  let y1 := st.y + Real.sin angle1 * speed cfg * dt
  let x2 := if x1 < cfg.xMin then cfg.xMin
    else if x1 > cfg.xMax then cfg.xMax else x1
  let angle2 := if x1 < cfg.xMin ∨ x1 > cfg.xMax then Real.pi - angle1
    else angle1
  let y2 := if y1 < cfg.yMin then cfg.yMin
    else if y1 > cfg.yMax then cfg.yMax else y1
  let angle3 := if y1 < cfg.yMin ∨ y1 > cfg.yMax then -angle2 else angle2
  let bounced := (x1 < cfg.xMin ∨ x1 > cfg.xMax) ∨
    (y1 < cfg.yMin ∨ y1 > cfg.yMax)
  let av2 := if bounced then av1 * (-0.7) else av1
  { x := x2, y := y2, angle := angle3, angularVelocity := av2,
    timeSinceDirectionChange := tDir1 }

/-- A sequence of `update(dt)` calls from the initial state. -/
noncomputable def run (cfg : TargetGenerator2DConfig) (initAngle : ℝ)
    (steps : List (ℝ × ℝ)) : State :=
  steps.foldl (fun st s => update cfg st s.1 s.2) (init cfg initAngle)

end Curvilinear

/-! ## Interrupt recovery time (metricsCalculationInterrupt, Module G) -/

/-- A 2D point (the `{x, y}` objects of the source). -/
structure Vec2 where
  x : ℝ
  y : ℝ

/-- One 2D tracking sample. -/
structure TrackingSample2D where
  timestamp : ℝ
  targetPosition : Vec2
  cursorPosition : Vec2

instance : Inhabited TrackingSample2D :=
  ⟨{ timestamp := 0, targetPosition := ⟨0, 0⟩, cursorPosition := ⟨0, 0⟩ }⟩

/-- An interrupt event; the fields read by the recovery computation
(`id`, `appearTime`), with the integer event id as a natural number. The
presentation fields (shape, color, key, response window) are not read by
it and are omitted. -/
structure Interrupt where
  id : ℕ
  appearTime : ℝ

/-- A response to an interrupt; the fields read by the recovery
computation (`interruptId`, `responseTime`, `missed`); `correct` is kept
for completeness, `keyPressed` is omitted. -/
structure InterruptResponse where
  interruptId : ℕ
  responseTime : ℝ
  correct : Bool
  missed : Bool

/-- `calculateRMSE` (2D): root of the mean of the squared Euclidean
per-sample errors; `0` on an empty list. -/
noncomputable def calculateRMSE2D (samples : List TrackingSample2D) : ℝ :=
  if samples.length = 0 then 0
  else
    let sumSquaredErrors :=
      (samples.map fun s =>
        let dx := s.targetPosition.x - s.cursorPosition.x
        let dy := s.targetPosition.y - s.cursorPosition.y
        let error := Real.sqrt (dx * dx + dy * dy)
        error * error).sum
    Real.sqrt (sumSquaredErrors / samples.length)

/-- The scan loop of `calculateMeanRecoveryTime`:
`for (let i = 0; i < postResponseSamples.length - 10; i++)`, checking the
10-sample window starting at `i` and returning the offset of the first
window whose RMSE is at or below the threshold. The loop condition
`i < length - 10` means the scan stops as soon as at most 10 samples
remain, so the window starting at the last possible index is never
examined. -/
noncomputable def recoveryScan (recoveryThreshold searchStartTime : ℝ) :
    List TrackingSample2D → Option ℝ
  | [] => none
  | s :: rest =>
      if (s :: rest).length ≤ 10 then none
      else if calculateRMSE2D ((s :: rest).take 10) ≤ recoveryThreshold then
        some (s.timestamp - searchStartTime)
      else recoveryScan recoveryThreshold searchStartTime rest

/-- `calculateMeanRecoveryTime`: for each interrupt with a found,
non-missed response, scan the samples after
`interrupt.appearTime + response.responseTime` for recovery
(`recoveryScan`); the mean of the found recovery times, `0` if none. -/
noncomputable def calculateMeanRecoveryTime
    (samples : List TrackingSample2D) (interrupts : List Interrupt)
    (responses : List InterruptResponse) (baselineRMSE : ℝ) : ℝ :=
  let recoveryThreshold := baselineRMSE * 1.2
  let recoveryTimes := interrupts.filterMap fun interrupt =>
    match responses.find? (fun r => r.interruptId = interrupt.id) with
    | none => none
    | some response =>
        if response.missed then none
        else
          let searchStartTime := interrupt.appearTime + response.responseTime
          let postResponseSamples :=
            samples.filter fun s => s.timestamp > searchStartTime
          recoveryScan recoveryThreshold searchStartTime postResponseSamples
  if recoveryTimes.length > 0 then
    recoveryTimes.sum / recoveryTimes.length
  else 0

/-- Modelled from the claim's words (spec side of the refinement), NOT
from the source: the recovery scan over EVERY rolling window of 10
consecutive post-response samples — a window is examined whenever 10
samples remain, including the one starting at the last possible index. -/
noncomputable def claimRecoveryScan (recoveryThreshold searchStartTime : ℝ) :
    List TrackingSample2D → Option ℝ
  | [] => none
  | s :: rest =>
      if (s :: rest).length < 10 then none
      else if calculateRMSE2D ((s :: rest).take 10) ≤ recoveryThreshold then
        some (s.timestamp - searchStartTime)
      else claimRecoveryScan recoveryThreshold searchStartTime rest

/-- Modelled from the claim's words (spec side of the refinement): mean
recovery time where each interrupt's recovery uses `claimRecoveryScan`
(all full windows). -/
noncomputable def claimMeanRecoveryTime
    (samples : List TrackingSample2D) (interrupts : List Interrupt)
    (responses : List InterruptResponse) (baselineRMSE : ℝ) : ℝ :=
  let recoveryThreshold := baselineRMSE * 1.2
  let recoveryTimes := interrupts.filterMap fun interrupt =>
    match responses.find? (fun r => r.interruptId = interrupt.id) with
    | none => none
    | some response =>
        if response.missed then none
        else
          let searchStartTime := interrupt.appearTime + response.responseTime
          let postResponseSamples :=
            samples.filter fun s => s.timestamp > searchStartTime
          claimRecoveryScan recoveryThreshold searchStartTime
            postResponseSamples
  if recoveryTimes.length > 0 then
    recoveryTimes.sum / recoveryTimes.length
  else 0

/-! ## Theorems for the claims -/

/-- C1 counterexample: at difficulty 1 the maximum of the response window
is 800 ms, not the 600 ms that the claimed formula `1200 - 600*d` gives. -/
theorem C1_counterexample :
    (getResponseWindow 1).2 = 800 ∧ (800 : ℚ) ≠ 1200 - 600 * 1 := by
  constructor
  · norm_num [getResponseWindow]
  · norm_num

/-- C1 (amended): for every difficulty d in [0,1], `getResponseWindow d`
returns the window `{min: 100, max: 1200 - 400*d}` milliseconds; in
particular at d = 1 the maximum is 800 ms and at d = 0 it is 1200 ms. -/
theorem C1_response_window (d : ℚ) (_h0 : 0 ≤ d) (_h1 : d ≤ 1) :
    getResponseWindow d = (100, 1200 - 400 * d) ∧
    (getResponseWindow 1).2 = 800 ∧ (getResponseWindow 0).2 = 1200 := by
  refine ⟨?_, by norm_num [getResponseWindow], by norm_num [getResponseWindow]⟩
  unfold getResponseWindow
  ring_nf

/-- C1 witness: the amended statement instantiated at difficulty 1/2. -/
theorem C1_witness :
    (0 : ℚ) ≤ 1/2 ∧ (1/2 : ℚ) ≤ 1 ∧
    (getResponseWindow (1/2) = (100, 1200 - 400 * (1/2)) ∧
      (getResponseWindow 1).2 = 800 ∧ (getResponseWindow 0).2 = 1200) :=
  ⟨by norm_num, by norm_num, C1_response_window (1/2) (by norm_num) (by norm_num)⟩

/-- C4: for every current difficulty in [0.1, 1.0] and every metrics
record, however extreme its values, the difficulty produced by
`adjustDifficulty` lies in [0.1, 1.0]. -/
theorem C4_difficulty_clamped (cur : ℚ) (m : TrialMetrics)
    (hlo : 1/10 ≤ cur) (hhi : cur ≤ 1) :
    1/10 ≤ adjustDifficulty cur m ∧ adjustDifficulty cur m ≤ 1 := by
  have hup : 1/10 ≤ min 1 (cur + 5/100) ∧ min 1 (cur + 5/100) ≤ 1 :=
    ⟨le_min (by norm_num) (by linarith), min_le_left _ _⟩
  have hdown : 1/10 ≤ max (1/10) (cur - 5/100) ∧
      max (1/10) (cur - 5/100) ≤ 1 :=
    ⟨le_max_left _ _, max_le (by norm_num) (by linarith)⟩
  unfold adjustDifficulty
  rcases m with ⟨tr, sp⟩
  cases tr with
  | some rmse =>
      dsimp only
      split
      · exact hup
      · exact hdown
  | none =>
      cases sp with
      | some accuracy =>
          dsimp only
          split
          · exact hup
          · split
            · exact hdown
            · exact ⟨hlo, hhi⟩
      | none => exact ⟨hlo, hhi⟩

/-- C4 witness: current difficulty 1/2 with an extreme tracking RMSE of
10^9 still yields a difficulty in [0.1, 1.0]. -/
theorem C4_witness :
    (1/10 : ℚ) ≤ 1/2 ∧ (1/2 : ℚ) ≤ 1 ∧
    (1/10 ≤ adjustDifficulty (1/2) ⟨some (10^9), none⟩ ∧
      adjustDifficulty (1/2) ⟨some (10^9), none⟩ ≤ 1) :=
  ⟨by norm_num, by norm_num,
    C4_difficulty_clamped (1/2) ⟨some (10^9), none⟩ (by norm_num) (by norm_num)⟩

/-- C5: for the band-based (spatial) controller, every accuracy value
strictly between 0.70 and 0.85 leaves the difficulty exactly unchanged,
for every current difficulty. -/
theorem C5_dead_band (cur accuracy : ℚ)
    (h1 : 7/10 < accuracy) (h2 : accuracy < 85/100) :
    adjustDifficulty cur ⟨none, some accuracy⟩ = cur := by
  unfold adjustDifficulty
  dsimp only
  rw [if_neg (by linarith), if_neg (by linarith)]

/-- C5 witness: accuracy 0.8 (inside the dead band) at difficulty 1/2. -/
theorem C5_witness :
    (7/10 : ℚ) < 4/5 ∧ (4/5 : ℚ) < 85/100 ∧
    adjustDifficulty (1/2) ⟨none, some (4/5)⟩ = 1/2 :=
  ⟨by norm_num, by norm_num, C5_dead_band (1/2) (4/5) (by norm_num) (by norm_num)⟩

/-- C6: on empty input the reducers return the canonical all-zero
records: `calculateTrackingMetrics []` (for every threshold) and
`calculateAttentionMetrics []`. -/
theorem C6_empty_input :
    (∀ thr : ℚ, calculateTrackingMetrics [] thr =
      { mae := 0, rmse := 0, timeOnTarget := 0, overshootCount := 0,
        overshootMagnitude := 0, smoothness := 0 }) ∧
    calculateAttentionMetrics [] =
      { hitRate := 0, missRate := 0, falseAlarmRate := 0, dPrime := 0,
        reactionTimes := [], meanRT := 0, medianRT := 0 } := by
  constructor
  · intro thr
    simp [calculateTrackingMetrics]
  · simp [calculateAttentionMetrics]

/-- The three-sample scenario of the tracking claims:
`(t=0, target=0, cursor=0), (t=1, target=1, cursor=0),
(t=2, target=1, cursor=1)` (input values 0). -/
def scenarioSamples : List TrackingSample :=
  [{ timestamp := 0, targetPosition := 0, cursorPosition := 0, inputValue := 0 },
   { timestamp := 1, targetPosition := 1, cursorPosition := 0, inputValue := 0 },
   { timestamp := 2, targetPosition := 1, cursorPosition := 1, inputValue := 0 }]

/-- C9: on the three-sample scenario with threshold 0.05,
`calculateTrackingMetrics` returns `mae = 1/3`, `rmse = sqrt (1/3)` and
`timeOnTarget = 200/3` percent. -/
theorem C9_concrete_tracking :
    (calculateTrackingMetrics scenarioSamples (1/20)).mae = 1/3 ∧
    (calculateTrackingMetrics scenarioSamples (1/20)).rmse =
      Real.sqrt (1/3) ∧
    (calculateTrackingMetrics scenarioSamples (1/20)).timeOnTarget = 200/3 := by
  refine ⟨?_, ?_, ?_⟩ <;>
    simp [calculateTrackingMetrics, scenarioSamples, trackingErrors,
      List.filter] <;>
    norm_num

/-- C10: the overshoot detector compares `Math.sign` of consecutive
errors, where an error of exactly 0 has sign 0; on the error sequence
`[0, 1, 0]` (three-sample scenario, threshold 0.05) the on-target sample
followed by an above-threshold error counts as an overshoot even though
the cursor never crossed the target: `overshootCount = 1` and
`overshootMagnitude = 1`. -/
theorem C10_overshoot_on_sign_change :
    (calculateTrackingMetrics scenarioSamples (1/20)).overshootCount = 1 ∧
    (calculateTrackingMetrics scenarioSamples (1/20)).overshootMagnitude = 1 := by
  constructor <;>
    simp [calculateTrackingMetrics, scenarioSamples, trackingErrors,
      overshootList, jsSign, List.filterMap] <;>
    norm_num

/-! Lemmas about `JSNum`: dividing by a finite value and adding never
recover a finite value from a non-finite one, and dividing by zero is
never finite. -/

namespace JSNum

theorem div_fin_zero_not_finite (x : JSNum) :
    ((x.div (fin 0)).isFinite) = false := by
  cases x with
  | fin a =>
      simp only [div, isFinite]
      split_ifs <;> rfl
  | nan => rfl
  | inf => simp only [div, isFinite]; split_ifs <;> rfl
  | ninf => simp only [div, isFinite]; split_ifs <;> rfl

theorem add_not_finite_left (x y : JSNum) (hx : x.isFinite = false) :
    ((x.add y).isFinite) = false := by
  cases x <;> cases y <;> first | rfl | exact absurd hx (by simp [isFinite])

theorem add_not_finite_right (x y : JSNum) (hy : y.isFinite = false) :
    ((x.add y).isFinite) = false := by
  cases x <;> cases y <;> first | rfl | exact absurd hy (by simp [isFinite])

theorem div_fin_not_finite (x : JSNum) (q : ℚ) (hx : x.isFinite = false) :
    ((x.div (fin q)).isFinite) = false := by
  cases x with
  | fin a => exact absurd hx (by simp [isFinite])
  | nan => rfl
  | inf => simp only [div, isFinite]; split_ifs <;> rfl
  | ninf => simp only [div, isFinite]; split_ifs <;> rfl

end JSNum

/-- The concrete C2 input: a zero 1D baseline RMSE with all other RMSEs
equal to 1. -/
def zeroBaselineInput : MultitaskMetricsInput :=
  { baseline1D := ⟨JSNum.fin 0⟩, baseline2D := ⟨JSNum.fin 1⟩,
    dual1D := ⟨JSNum.fin 1⟩, dual2D := ⟨JSNum.fin 1⟩ }

/-- C2 counterexample: with `baseline1D.rmse = 0` (and the other RMSEs 1),
`calculateMultitaskMetrics` returns `dualTaskCost = Infinity`, not the 0
the claim requires. -/
theorem C2_counterexample :
    (calculateMultitaskMetrics zeroBaselineInput).dualTaskCost = JSNum.inf ∧
    JSNum.inf ≠ JSNum.fin 0 := by
  constructor
  · norm_num [calculateMultitaskMetrics, zeroBaselineInput, JSNum.sub,
      JSNum.neg, JSNum.add, JSNum.div]
  · intro h
    exact JSNum.noConfusion h

/-- C2 (amended): the zero-denominator convention holds only for the
guarded ratio (`auditoryCost` is 0 when the baseline d-prime is exactly
0); the RMSE-based cost ratios are unguarded — whenever
`baseline1D.rmse = 0` or `baseline2D.rmse = 0` the `dualTaskCost` of
`calculateMultitaskMetrics` is `NaN` or `±Infinity` (never a finite 0),
and whenever the computed mean of the two baseline RMSEs is 0 the
`dualMotorCost` of `calculateTripleTaskMetrics` is `NaN` or `±Infinity`. -/
theorem C2_zero_baseline_not_finite :
    (∀ input : MultitaskMetricsInput,
      input.baseline1D.rmse = JSNum.fin 0 ∨
        input.baseline2D.rmse = JSNum.fin 0 →
      ((calculateMultitaskMetrics input).dualTaskCost).isFinite = false) ∧
    (∀ metrics1D metrics2D baseline1D baseline2D : RmseMetrics,
      (baseline1D.rmse.add baseline2D.rmse).div (JSNum.fin 2) = JSNum.fin 0 →
      (dualMotorCost metrics1D metrics2D baseline1D baseline2D).isFinite =
        false) ∧
    (∀ metricsAudioDPrime : JSNum,
      auditoryCost metricsAudioDPrime (JSNum.fin 0) = JSNum.fin 0) := by
  refine ⟨?_, ?_, ?_⟩
  · intro input h
    unfold calculateMultitaskMetrics
    rcases h with h | h <;> rw [h] <;>
      apply JSNum.div_fin_not_finite
    · exact JSNum.add_not_finite_left _ _ (JSNum.div_fin_zero_not_finite _)
    · exact JSNum.add_not_finite_right _ _ (JSNum.div_fin_zero_not_finite _)
  · intro m1 m2 b1 b2 h
    unfold dualMotorCost
    rw [h]
    exact JSNum.div_fin_zero_not_finite _
  · intro mA
    simp [auditoryCost]

/-- C2 witness: the amended statement instantiated at concrete inputs —
the zero-1D-baseline input, two zero baselines for the triple-task motor
cost, and a zero baseline d-prime of 0 with triple-task d-prime 1. -/
theorem C2_witness :
    ((calculateMultitaskMetrics zeroBaselineInput).dualTaskCost).isFinite =
      false ∧
    (dualMotorCost ⟨JSNum.fin 1⟩ ⟨JSNum.fin 1⟩ ⟨JSNum.fin 0⟩
      ⟨JSNum.fin 0⟩).isFinite = false ∧
    auditoryCost (JSNum.fin 1) (JSNum.fin 0) = JSNum.fin 0 :=
  ⟨C2_zero_baseline_not_finite.1 zeroBaselineInput (Or.inl rfl),
   C2_zero_baseline_not_finite.2.1 _ _ _ _
     (by norm_num [JSNum.add, JSNum.div]),
   C2_zero_baseline_not_finite.2.2 _⟩

/-! Boundedness lemmas for the generators. -/

/-- A fold preserves any property that every step re-establishes. -/
theorem foldl_invariant {α β : Type} (P : α → Prop) (f : α → β → α)
    (hstep : ∀ a b, P a → P (f a b)) :
    ∀ (l : List β) (a : α), P a → P (l.foldl f a) := by
  intro l
  induction l with
  | nil => intro a ha; exact ha
  | cons b rest ih => intro a ha; exact ih (f a b) (hstep a b ha)

theorem ou_update_mem (cfg : TargetGeneratorConfig)
    (h : cfg.boundsMin ≤ cfg.boundsMax) (x dt rand : ℝ) :
    cfg.boundsMin ≤ OrnsteinUhlenbeck.update cfg x dt rand ∧
      OrnsteinUhlenbeck.update cfg x dt rand ≤ cfg.boundsMax := by
  simp only [OrnsteinUhlenbeck.update]
  split_ifs <;> constructor <;> (try dsimp only) <;> linarith

theorem ou_run_mem (cfg : TargetGeneratorConfig)
    (h : cfg.boundsMin ≤ cfg.boundsMax) (steps : List (ℝ × ℝ)) :
    cfg.boundsMin ≤ OrnsteinUhlenbeck.run cfg steps ∧
      OrnsteinUhlenbeck.run cfg steps ≤ cfg.boundsMax := by
  refine foldl_invariant
    (fun x => cfg.boundsMin ≤ x ∧ x ≤ cfg.boundsMax) _ ?_ steps _ ?_
  · intro x s _
    exact ou_update_mem cfg h x s.1 s.2
  · constructor <;> simp only [OrnsteinUhlenbeck.init, OrnsteinUhlenbeck.mu]
      <;> linarith

theorem sin_position_mem (cfg : TargetGeneratorConfig)
    (h : cfg.boundsMin ≤ cfg.boundsMax) (phase0 phase1 phase2 t : ℝ) :
    cfg.boundsMin ≤ Sinusoid.position cfg phase0 phase1 phase2 t ∧
      Sinusoid.position cfg phase0 phase1 phase2 t ≤ cfg.boundsMax := by
  simp only [Sinusoid.position, Sinusoid.center, Sinusoid.amplitude]
  set s1 := Real.sin (2 * Real.pi * Sinusoid.baseFreq cfg * t + phase0) with hs1
  set s2 := Real.sin (2 * Real.pi * (Sinusoid.baseFreq cfg * 1.618) * t + phase1)
    with hs2
  set s3 := Real.sin (2 * Real.pi * (Sinusoid.baseFreq cfg * 0.5) * t + phase2)
    with hs3
  have h1 : -1 ≤ s1 ∧ s1 ≤ 1 := ⟨Real.neg_one_le_sin _, Real.sin_le_one _⟩
  have h2 : -1 ≤ s2 ∧ s2 ≤ 1 := ⟨Real.neg_one_le_sin _, Real.sin_le_one _⟩
  have h3 : -1 ≤ s3 ∧ s3 ≤ 1 := ⟨Real.neg_one_le_sin _, Real.sin_le_one _⟩
  have hr : (0 : ℝ) ≤ cfg.boundsMax - cfg.boundsMin := by linarith
  set S := 1 * s1 + 1/2 * s2 + 1/3 * s3 with hS
  have hSlo : 0 ≤ S + 11/6 := by simp only [hS]; linarith [h1.1, h2.1, h3.1]
  have hShi : 0 ≤ 11/6 - S := by simp only [hS]; linarith [h1.2, h2.2, h3.2]
  have hdiv : S / (1 + 1/2 + 1/3) = 6/11 * S := by ring
  rw [hdiv]
  have hlo2 : (cfg.boundsMax - cfg.boundsMin) * 0.4 * (6/11 * S) =
      12/55 * ((cfg.boundsMax - cfg.boundsMin) * (S + 11/6)) -
        2/5 * (cfg.boundsMax - cfg.boundsMin) := by ring
  have hhi2 : (cfg.boundsMax - cfg.boundsMin) * 0.4 * (6/11 * S) =
      2/5 * (cfg.boundsMax - cfg.boundsMin) -
        12/55 * ((cfg.boundsMax - cfg.boundsMin) * (11/6 - S)) := by ring
  constructor
  · rw [hlo2]
    linarith [mul_nonneg hr hSlo]
  · rw [hhi2]
    linarith [mul_nonneg hr hShi]

theorem pw_update_mem (cfg : TargetGeneratorConfig)
    (h : cfg.boundsMin ≤ cfg.boundsMax) (st : Piecewise.State)
    (dt rand : ℝ) :
    cfg.boundsMin ≤ (Piecewise.update cfg st dt rand).x ∧
      (Piecewise.update cfg st dt rand).x ≤ cfg.boundsMax := by
  simp only [Piecewise.update]
  split_ifs <;> constructor <;> (try dsimp only) <;> linarith

theorem pw_run_mem (cfg : TargetGeneratorConfig)
    (h : cfg.boundsMin ≤ cfg.boundsMax) (steps : List (ℝ × ℝ)) :
    cfg.boundsMin ≤ (Piecewise.run cfg steps).x ∧
      (Piecewise.run cfg steps).x ≤ cfg.boundsMax := by
  refine foldl_invariant
    (fun st : Piecewise.State =>
      cfg.boundsMin ≤ st.x ∧ st.x ≤ cfg.boundsMax) _ ?_ steps _ ?_
  · intro st s _
    exact pw_update_mem cfg h st s.1 s.2
  · constructor <;> simp only [Piecewise.init] <;> linarith

theorem mom_update_mem (cfg : TargetGenerator2DConfig)
    (hx : cfg.xMin ≤ cfg.xMax) (hy : cfg.yMin ≤ cfg.yMax)
    (st : Momentum.State) (dt rand1 rand2 : ℝ) :
    cfg.xMin ≤ (Momentum.update cfg st dt rand1 rand2).x ∧
      (Momentum.update cfg st dt rand1 rand2).x ≤ cfg.xMax ∧
      cfg.yMin ≤ (Momentum.update cfg st dt rand1 rand2).y ∧
      (Momentum.update cfg st dt rand1 rand2).y ≤ cfg.yMax := by
  simp only [Momentum.update]
  split_ifs <;> refine ⟨?_, ?_, ?_, ?_⟩ <;> (try dsimp only) <;> linarith

theorem mom_run_mem (cfg : TargetGenerator2DConfig)
    (hx : cfg.xMin ≤ cfg.xMax) (hy : cfg.yMin ≤ cfg.yMax)
    (steps : List (ℝ × ℝ × ℝ)) :
    cfg.xMin ≤ (Momentum.run cfg steps).x ∧
      (Momentum.run cfg steps).x ≤ cfg.xMax ∧
      cfg.yMin ≤ (Momentum.run cfg steps).y ∧
      (Momentum.run cfg steps).y ≤ cfg.yMax := by
  refine foldl_invariant
    (fun st : Momentum.State =>
      cfg.xMin ≤ st.x ∧ st.x ≤ cfg.xMax ∧
        cfg.yMin ≤ st.y ∧ st.y ≤ cfg.yMax) _ ?_ steps _ ?_
  · intro st s _
    exact mom_update_mem cfg hx hy st s.1 s.2.1 s.2.2
  · refine ⟨?_, ?_, ?_, ?_⟩ <;> simp only [Momentum.init] <;> linarith

theorem curv_update_mem (cfg : TargetGenerator2DConfig)
    (hx : cfg.xMin ≤ cfg.xMax) (hy : cfg.yMin ≤ cfg.yMax)
    (st : Curvilinear.State) (dt rand : ℝ) :
    cfg.xMin ≤ (Curvilinear.update cfg st dt rand).x ∧
      (Curvilinear.update cfg st dt rand).x ≤ cfg.xMax ∧
      cfg.yMin ≤ (Curvilinear.update cfg st dt rand).y ∧
      (Curvilinear.update cfg st dt rand).y ≤ cfg.yMax := by
  simp only [Curvilinear.update]
  split_ifs <;> refine ⟨?_, ?_, ?_, ?_⟩ <;> (try dsimp only) <;> linarith

theorem curv_run_mem (cfg : TargetGenerator2DConfig)
    (hx : cfg.xMin ≤ cfg.xMax) (hy : cfg.yMin ≤ cfg.yMax)
    (initAngle : ℝ) (steps : List (ℝ × ℝ)) :
    cfg.xMin ≤ (Curvilinear.run cfg initAngle steps).x ∧
      (Curvilinear.run cfg initAngle steps).x ≤ cfg.xMax ∧
      cfg.yMin ≤ (Curvilinear.run cfg initAngle steps).y ∧
      (Curvilinear.run cfg initAngle steps).y ≤ cfg.yMax := by
  refine foldl_invariant
    (fun st : Curvilinear.State =>
      cfg.xMin ≤ st.x ∧ st.x ≤ cfg.xMax ∧
        cfg.yMin ≤ st.y ∧ st.y ≤ cfg.yMax) _ ?_ steps _ ?_
  · intro st s _
    exact curv_update_mem cfg hx hy st s.1 s.2
  · refine ⟨?_, ?_, ?_, ?_⟩ <;> simp only [Curvilinear.init] <;> linarith

/-- C3: for every generator kind (Ornstein-Uhlenbeck, sum-of-sinusoids,
piecewise 1D; momentum, curvilinear 2D), every difficulty in [0,1], every
well-formed bounds (min ≤ max), every random stream, and every finite
sequence of `update(dt)` calls with `dt ≥ 0`, the position returned by
`update` and by `getPosition` lies within the configured bounds. (For the
fold-based generators the position after a run IS the value `update`
returned and `getPosition` reports; the sinusoid's `getPosition`
recomputes `position` unclamped and its `update` returns the clamped
value, so both are stated.) -/
theorem C3_generators_bounded :
    (∀ (cfg : TargetGeneratorConfig) (steps : List (ℝ × ℝ)),
      cfg.boundsMin ≤ cfg.boundsMax → 0 ≤ cfg.difficulty →
      cfg.difficulty ≤ 1 → (∀ s ∈ steps, 0 ≤ s.1) →
      cfg.boundsMin ≤ OrnsteinUhlenbeck.run cfg steps ∧
        OrnsteinUhlenbeck.run cfg steps ≤ cfg.boundsMax) ∧
    (∀ (cfg : TargetGeneratorConfig) (phase0 phase1 phase2 t dt : ℝ),
      cfg.boundsMin ≤ cfg.boundsMax → 0 ≤ cfg.difficulty →
      cfg.difficulty ≤ 1 → 0 ≤ dt →
      (cfg.boundsMin ≤ Sinusoid.position cfg phase0 phase1 phase2 t ∧
        Sinusoid.position cfg phase0 phase1 phase2 t ≤ cfg.boundsMax) ∧
      (cfg.boundsMin ≤ (Sinusoid.update cfg phase0 phase1 phase2 t dt).1 ∧
        (Sinusoid.update cfg phase0 phase1 phase2 t dt).1 ≤
          cfg.boundsMax)) ∧
    (∀ (cfg : TargetGeneratorConfig) (steps : List (ℝ × ℝ)),
      cfg.boundsMin ≤ cfg.boundsMax → 0 ≤ cfg.difficulty →
      cfg.difficulty ≤ 1 → (∀ s ∈ steps, 0 ≤ s.1) →
      cfg.boundsMin ≤ (Piecewise.run cfg steps).x ∧
        (Piecewise.run cfg steps).x ≤ cfg.boundsMax) ∧
    (∀ (cfg : TargetGenerator2DConfig) (steps : List (ℝ × ℝ × ℝ)),
      cfg.xMin ≤ cfg.xMax → cfg.yMin ≤ cfg.yMax → 0 ≤ cfg.difficulty →
      cfg.difficulty ≤ 1 → (∀ s ∈ steps, 0 ≤ s.1) →
      cfg.xMin ≤ (Momentum.run cfg steps).x ∧
        (Momentum.run cfg steps).x ≤ cfg.xMax ∧
        cfg.yMin ≤ (Momentum.run cfg steps).y ∧
        (Momentum.run cfg steps).y ≤ cfg.yMax) ∧
    (∀ (cfg : TargetGenerator2DConfig) (initAngle : ℝ)
        (steps : List (ℝ × ℝ)),
      cfg.xMin ≤ cfg.xMax → cfg.yMin ≤ cfg.yMax → 0 ≤ cfg.difficulty →
      cfg.difficulty ≤ 1 → (∀ s ∈ steps, 0 ≤ s.1) →
      cfg.xMin ≤ (Curvilinear.run cfg initAngle steps).x ∧
        (Curvilinear.run cfg initAngle steps).x ≤ cfg.xMax ∧
        cfg.yMin ≤ (Curvilinear.run cfg initAngle steps).y ∧
        (Curvilinear.run cfg initAngle steps).y ≤ cfg.yMax) := by
  refine ⟨?_, ?_, ?_, ?_, ?_⟩
  · intro cfg steps h _ _ _
    exact ou_run_mem cfg h steps
  · intro cfg phase0 phase1 phase2 t dt h _ _ _
    refine ⟨sin_position_mem cfg h phase0 phase1 phase2 t, ?_⟩
    have hpos := sin_position_mem cfg h phase0 phase1 phase2 (t + dt)
    simp only [Sinusoid.update]
    exact ⟨le_max_left _ _, max_le h (min_le_left _ _)⟩
  · intro cfg steps h _ _ _
    exact pw_run_mem cfg h steps
  · intro cfg steps hx hy _ _ _
    exact mom_run_mem cfg hx hy steps
  · intro cfg initAngle steps hx hy _ _ _
    exact curv_run_mem cfg hx hy initAngle steps

/-- C3 witness: each generator instantiated on the unit bounds at
difficulty 1/2 with a single one-second step (draws 0). -/
theorem C3_witness :
    ((0 : ℝ) ≤ OrnsteinUhlenbeck.run
        { boundsMin := 0, boundsMax := 1, difficulty := 1/2 } [(1, 0)] ∧
      OrnsteinUhlenbeck.run
        { boundsMin := 0, boundsMax := 1, difficulty := 1/2 } [(1, 0)] ≤ 1) ∧
    ((0 : ℝ) ≤ Sinusoid.position
        { boundsMin := 0, boundsMax := 1, difficulty := 1/2 } 0 0 0 0 ∧
      Sinusoid.position
        { boundsMin := 0, boundsMax := 1, difficulty := 1/2 } 0 0 0 0 ≤ 1) ∧
    ((0 : ℝ) ≤ (Piecewise.run
        { boundsMin := 0, boundsMax := 1, difficulty := 1/2 } [(1, 0)]).x ∧
      (Piecewise.run
        { boundsMin := 0, boundsMax := 1, difficulty := 1/2 } [(1, 0)]).x ≤ 1) ∧
    ((0 : ℝ) ≤ (Momentum.run
        { xMin := 0, xMax := 1, yMin := 0, yMax := 1, difficulty := 1/2 }
        [(1, 0, 0)]).x ∧
      (Momentum.run
        { xMin := 0, xMax := 1, yMin := 0, yMax := 1, difficulty := 1/2 }
        [(1, 0, 0)]).y ≤ 1) ∧
    ((0 : ℝ) ≤ (Curvilinear.run
        { xMin := 0, xMax := 1, yMin := 0, yMax := 1, difficulty := 1/2 } 0
        [(1, 0)]).x ∧
      (Curvilinear.run
        { xMin := 0, xMax := 1, yMin := 0, yMax := 1, difficulty := 1/2 } 0
        [(1, 0)]).y ≤ 1) := by
  have h := C3_generators_bounded
  refine ⟨?_, ?_, ?_, ?_, ?_⟩
  · exact h.1 { boundsMin := 0, boundsMax := 1, difficulty := 1/2 }
      [(1, 0)] (by norm_num) (by norm_num) (by norm_num) (by simp)
  · exact (h.2.1 { boundsMin := 0, boundsMax := 1, difficulty := 1/2 }
      0 0 0 0 1 (by norm_num) (by norm_num) (by norm_num) (by norm_num)).1
  · exact h.2.2.1 { boundsMin := 0, boundsMax := 1, difficulty := 1/2 }
      [(1, 0)] (by norm_num) (by norm_num) (by norm_num) (by simp)
  · have h4 := h.2.2.2.1
      { xMin := 0, xMax := 1, yMin := 0, yMax := 1, difficulty := 1/2 }
      [(1, 0, 0)] (by norm_num) (by norm_num) (by norm_num) (by norm_num)
      (by simp)
    exact ⟨h4.1, h4.2.2.2⟩
  · have h5 := h.2.2.2.2
      { xMin := 0, xMax := 1, yMin := 0, yMax := 1, difficulty := 1/2 }
      0 [(1, 0)] (by norm_num) (by norm_num) (by norm_num) (by norm_num)
      (by simp)
    exact ⟨h5.1, h5.2.2.2⟩

/-! C7: characterization of the recovery scan and the off-by-one. -/

/-- The loop of `calculateMeanRecoveryTime` finds exactly the first
window start index `i` with `i < post.length - 10` whose 10-sample window
RMSE is at or below the threshold, and reports the offset of that
window's first sample from the search start. -/
theorem recoveryScan_eq_find (thr s0 : ℝ) (post : List TrackingSample2D) :
    recoveryScan thr s0 post =
      ((List.range (post.length - 10)).find? fun i =>
          decide (calculateRMSE2D ((post.drop i).take 10) ≤ thr)).map
        fun i => ((post.drop i).headD default).timestamp - s0 := by
  induction post with
  | nil => simp [recoveryScan]
  | cons s rest ih =>
      have hstep : recoveryScan thr s0 (s :: rest) =
          if (s :: rest).length ≤ 10 then none
          else if calculateRMSE2D ((s :: rest).take 10) ≤ thr then
            some (s.timestamp - s0)
          else recoveryScan thr s0 rest := rfl
      by_cases hlen : (s :: rest).length ≤ 10
      · have h0 : (s :: rest).length - 10 = 0 := Nat.sub_eq_zero_of_le hlen
        rw [hstep, if_pos hlen, h0]
        simp
      · have hlen' : 10 ≤ rest.length := by
          simp only [List.length_cons] at hlen; omega
        have hrange : (s :: rest).length - 10 = (rest.length - 10) + 1 := by
          simp only [List.length_cons]; omega
        rw [hstep, if_neg hlen, hrange, List.range_succ_eq_map]
        by_cases hr : calculateRMSE2D ((s :: rest).take 10) ≤ thr
        · rw [if_pos hr, List.find?_cons_of_pos _ (by simpa using hr)]
          simp
        · rw [if_neg hr, ih,
            List.find?_cons_of_neg _ (by simpa using hr),
            List.find?_map, Option.map_map]
          have hpred : ((fun i => decide (calculateRMSE2D
                (((s :: rest).drop i).take 10) ≤ thr)) ∘ Nat.succ) =
              fun i => decide (calculateRMSE2D ((rest.drop i).take 10) ≤ thr)
              := by
            funext i
            simp [Function.comp]
          have hfun : ((fun i =>
                (((s :: rest).drop i).headD default).timestamp - s0) ∘
                  Nat.succ) =
              fun i => ((rest.drop i).headD default).timestamp - s0 := by
            funext i
            simp [Function.comp]
          rw [hpred, hfun]

/-- Modelled from the amended claim (spec-side definition for the
refinement): the recovery times per interrupt, where the scan examines
only window start indices `i` with `i < n - 10` over the `n`
post-response samples — the window beginning at the last possible start
index `n - 10` is never examined, and with at most 10 post-response
samples no recovery is found. -/
noncomputable def amendedRecoveryTimes (samples : List TrackingSample2D)
    (interrupts : List Interrupt) (responses : List InterruptResponse)
    (baselineRMSE : ℝ) : List ℝ :=
  interrupts.filterMap fun interrupt =>
    match responses.find? (fun r => r.interruptId = interrupt.id) with
    | none => none
    | some response =>
        if response.missed then none
        else
          let searchStartTime := interrupt.appearTime + response.responseTime
          let post := samples.filter fun s => s.timestamp > searchStartTime
          ((List.range (post.length - 10)).find? fun i =>
              decide (calculateRMSE2D ((post.drop i).take 10) ≤
                baselineRMSE * 1.2)).map
            fun i => ((post.drop i).headD default).timestamp - searchStartTime

/-- C7 (amended): for every input, `calculateMeanRecoveryTime` equals the
mean (0 if none) of the per-interrupt recovery times described by the
amended claim: for each interrupt whose first matching response is not
missed, the offset from search start of the first 10-sample window among
start indices `0 ≤ i < n - 10` whose RMSE is at most 1.2 × baselineRMSE;
interrupts with no such window contribute no value. -/
theorem C7_mean_recovery_time (samples : List TrackingSample2D)
    (interrupts : List Interrupt) (responses : List InterruptResponse)
    (baselineRMSE : ℝ) :
    calculateMeanRecoveryTime samples interrupts responses baselineRMSE =
      if 0 < (amendedRecoveryTimes samples interrupts responses
          baselineRMSE).length then
        (amendedRecoveryTimes samples interrupts responses baselineRMSE).sum /
          (amendedRecoveryTimes samples interrupts responses
            baselineRMSE).length
      else 0 := by
  have hlist : (interrupts.filterMap fun interrupt =>
      match responses.find? (fun r => r.interruptId = interrupt.id) with
      | none => none
      | some response =>
          if response.missed then none
          else
            recoveryScan (baselineRMSE * 1.2)
              (interrupt.appearTime + response.responseTime)
              (samples.filter fun s =>
                s.timestamp > interrupt.appearTime + response.responseTime)) =
      amendedRecoveryTimes samples interrupts responses baselineRMSE := by
    simp only [amendedRecoveryTimes]
    congr 1
    funext interrupt
    cases responses.find? (fun r => r.interruptId = interrupt.id) with
    | none => rfl
    | some response =>
        by_cases hm : response.missed
        · simp [hm]
        · simp only [hm, if_false, Bool.false_eq_true]
          rw [recoveryScan_eq_find]
  simp only [calculateMeanRecoveryTime]
  rw [hlist]

/-- A perfectly tracked 2D sample (zero error) at time `t`. -/
noncomputable def perfectSample (t : ℝ) : TrackingSample2D :=
  { timestamp := t, targetPosition := ⟨0, 0⟩, cursorPosition := ⟨0, 0⟩ }

/-- Exactly 10 perfectly tracked post-response samples at times 1..10. -/
noncomputable def tenPerfectSamples : List TrackingSample2D :=
  [perfectSample 1, perfectSample 2, perfectSample 3, perfectSample 4,
   perfectSample 5, perfectSample 6, perfectSample 7, perfectSample 8,
   perfectSample 9, perfectSample 10]

/-- C7 counterexample: one interrupt (id 1, appear time 0) answered at
response time 0, baseline RMSE 1, and exactly 10 post-response samples
with zero tracking error. All 10 samples form a qualifying window
(RMSE 0 ≤ 1.2 × 1), so the claimed scan over every full 10-sample window
finds recovery at offset 1; but the code's loop (`i < length - 10`) never
examines that window and `calculateMeanRecoveryTime` returns 0. -/
theorem C7_counterexample :
    calculateMeanRecoveryTime tenPerfectSamples
      [{ id := 1, appearTime := 0 }]
      [{ interruptId := 1, responseTime := 0, correct := true,
         missed := false }] 1 = 0 ∧
    claimMeanRecoveryTime tenPerfectSamples
      [{ id := 1, appearTime := 0 }]
      [{ interruptId := 1, responseTime := 0, correct := true,
         missed := false }] 1 = 1 ∧
    (0 : ℝ) ≠ 1 := by
  have hpost : (tenPerfectSamples.filter fun s =>
      s.timestamp > (0 : ℝ) + 0) = tenPerfectSamples := by
    rw [List.filter_eq_self]
    intro a ha
    fin_cases ha <;> simp [perfectSample]
  have hrmse : calculateRMSE2D tenPerfectSamples = 0 := by
    simp [calculateRMSE2D, tenPerfectSamples, perfectSample]
  refine ⟨?_, ?_, by norm_num⟩
  · simp only [calculateMeanRecoveryTime, List.filterMap_cons,
      List.filterMap_nil]
    rw [List.find?_cons_of_pos _ (by simp)]
    simp only [Bool.false_eq_true, if_false]
    rw [hpost, recoveryScan_eq_find]
    have hlen : tenPerfectSamples.length = 10 := rfl
    rw [hlen]
    norm_num
  · simp only [claimMeanRecoveryTime, List.filterMap_cons,
      List.filterMap_nil]
    rw [List.find?_cons_of_pos _ (by simp)]
    simp only [Bool.false_eq_true, if_false]
    rw [hpost]
    have hscan : claimRecoveryScan ((1 : ℝ) * 1.2) ((0 : ℝ) + 0)
        tenPerfectSamples = some ((1 : ℝ) - (0 + 0)) := by
      have hcons : tenPerfectSamples = perfectSample 1 ::
          [perfectSample 2, perfectSample 3, perfectSample 4,
           perfectSample 5, perfectSample 6, perfectSample 7,
           perfectSample 8, perfectSample 9, perfectSample 10] := rfl
      rw [hcons]
      have hstep : claimRecoveryScan ((1 : ℝ) * 1.2) ((0 : ℝ) + 0)
          (perfectSample 1 ::
            [perfectSample 2, perfectSample 3, perfectSample 4,
             perfectSample 5, perfectSample 6, perfectSample 7,
             perfectSample 8, perfectSample 9, perfectSample 10]) =
          if (10 : ℕ) < 10 then none
          else if calculateRMSE2D tenPerfectSamples ≤ (1 : ℝ) * 1.2 then
            some ((perfectSample 1).timestamp - ((0 : ℝ) + 0))
          else claimRecoveryScan ((1 : ℝ) * 1.2) ((0 : ℝ) + 0)
            [perfectSample 2, perfectSample 3, perfectSample 4,
             perfectSample 5, perfectSample 6, perfectSample 7,
             perfectSample 8, perfectSample 9, perfectSample 10] := rfl
      rw [hstep, if_neg (by norm_num), if_pos (by rw [hrmse]; norm_num)]
      simp [perfectSample]
    rw [hscan]
    norm_num

/-! C8: the d-prime round trip at hit rate 0.99, false-alarm rate 0.01.
The tail branches of `inverseNormalCDF` evaluate at
`q = sqrt(-2 ln 0.01) = sqrt(2 ln 100)`; we bound `ln 100` through
integer powers of `e` and propagate the interval through the rational
approximation. -/

theorem log_hundred_gt : (4.605 : ℝ) < Real.log 100 := by
  rw [Real.lt_log_iff_exp_lt (by norm_num : (0:ℝ) < 100)]
  have h200 : Real.exp 4.605 ^ (200 : ℕ) = Real.exp 1 ^ (921 : ℕ) := by
    rw [← Real.exp_nat_mul, ← Real.exp_nat_mul]
    norm_num
  have hlt : Real.exp 1 ^ (921 : ℕ) < (2.7182818286 : ℝ) ^ (921 : ℕ) :=
    pow_lt_pow_left₀ Real.exp_one_lt_d9 (Real.exp_pos 1).le (by norm_num)
  have hnum : (2.7182818286 : ℝ) ^ (921 : ℕ) < (100 : ℝ) ^ (200 : ℕ) := by
    norm_num
  refine lt_of_pow_lt_pow_left₀ 200 (by norm_num) ?_
  calc Real.exp 4.605 ^ (200 : ℕ) = Real.exp 1 ^ (921 : ℕ) := h200
    _ < (2.7182818286 : ℝ) ^ (921 : ℕ) := hlt
    _ < (100 : ℝ) ^ (200 : ℕ) := hnum

theorem log_hundred_lt : Real.log 100 < (4.606 : ℝ) := by
  rw [← Real.exp_lt_exp, Real.exp_log (by norm_num : (0:ℝ) < 100)]
  have h500 : Real.exp 4.606 ^ (500 : ℕ) = Real.exp 1 ^ (2303 : ℕ) := by
    rw [← Real.exp_nat_mul, ← Real.exp_nat_mul]
    norm_num
  have hlt : (2.7182818283 : ℝ) ^ (2303 : ℕ) < Real.exp 1 ^ (2303 : ℕ) :=
    pow_lt_pow_left₀ Real.exp_one_gt_d9 (by norm_num) (by norm_num)
  have hnum : (100 : ℝ) ^ (500 : ℕ) < (2.7182818283 : ℝ) ^ (2303 : ℕ) := by
    norm_num
  refine lt_of_pow_lt_pow_left₀ 500 (Real.exp_pos _).le ?_
  calc (100 : ℝ) ^ (500 : ℕ) < (2.7182818283 : ℝ) ^ (2303 : ℕ) := hnum
    _ < Real.exp 1 ^ (2303 : ℕ) := hlt
    _ = Real.exp 4.606 ^ (500 : ℕ) := h500.symm

set_option maxHeartbeats 3200000 in
theorem dPrime_99_01_bound :
    |calculateDPrime (99/100) (1/100) - 4.65| ≤ 0.01 := by
  have hc1 : correctRate (99/100) = 99/100 := by norm_num [correctRate]
  have hc2 : correctRate (1/100) = 1/100 := by norm_num [correctRate]
  unfold calculateDPrime
  rw [hc1, hc2]
  have hcast1 : ((99/100 : ℚ) : ℝ) = 0.99 := by norm_num
  have hcast2 : ((1/100 : ℚ) : ℝ) = 0.01 := by norm_num
  rw [hcast1, hcast2]
  set q : ℝ := Real.sqrt (-2 * Real.log 0.01) with hqdef
  have h99 : inverseNormalCDF 0.99 =
      -(((((-0.007784894002430293 * q + -0.3223964580411365) * q +
          -2.400758277161838) * q + -2.549732539343734) * q +
          4.374664141464968) * q + 2.938163982698783) /
        ((((0.007784695709041462 * q + 0.3224671290700398) * q +
          2.445134137142996) * q + 3.754408661907416) * q + 1) := by
    have h1e : (1 : ℝ) - 0.99 = 0.01 := by norm_num
    simp only [inverseNormalCDF]
    rw [if_neg (by norm_num), if_neg (by norm_num), if_neg (by norm_num),
      if_neg (by norm_num), h1e]
  have h01 : inverseNormalCDF 0.01 =
      (((((-0.007784894002430293 * q + -0.3223964580411365) * q +
          -2.400758277161838) * q + -2.549732539343734) * q +
          4.374664141464968) * q + 2.938163982698783) /
        ((((0.007784695709041462 * q + 0.3224671290700398) * q +
          2.445134137142996) * q + 3.754408661907416) * q + 1) := by
    simp only [inverseNormalCDF]
    rw [if_neg (by norm_num), if_neg (by norm_num), if_pos (by norm_num)]
  rw [h99, h01]
  set N : ℝ := ((((-0.007784894002430293 * q + -0.3223964580411365) * q +
      -2.400758277161838) * q + -2.549732539343734) * q +
      4.374664141464968) * q + 2.938163982698783 with hN
  set D : ℝ := (((0.007784695709041462 * q + 0.3224671290700398) * q +
      2.445134137142996) * q + 3.754408661907416) * q + 1 with hD
  have hlogpt : Real.log 0.01 = -Real.log 100 := by
    rw [show (0.01 : ℝ) = (100 : ℝ)⁻¹ by norm_num, Real.log_inv]
  have harg : (9.21 : ℝ) ≤ -2 * Real.log 0.01 := by
    rw [hlogpt]
    linarith [log_hundred_gt]
  have harg' : -2 * Real.log 0.01 ≤ 9.212 := by
    rw [hlogpt]
    linarith [log_hundred_lt]
  have hq0 : 0 ≤ q := Real.sqrt_nonneg _
  have hqlo : (3.0347 : ℝ) ≤ q := by
    rw [hqdef]
    rw [show (-2 * Real.log 0.01) = -2 * Real.log 0.01 from rfl]
    refine (Real.le_sqrt (by norm_num) (by linarith)).mpr ?_
    nlinarith [harg]
  have hqhi : q ≤ 3.0352 := by
    rw [hqdef]
    refine Real.sqrt_le_iff.mpr ⟨by norm_num, ?_⟩
    nlinarith [harg']
  have h2lo : (9.2094 : ℝ) ≤ q^2 := by nlinarith [hqlo, hq0]
  have h2hi : q^2 ≤ (9.2125 : ℝ) := by nlinarith [hqhi, hq0]
  have h3lo : (9.2094 : ℝ) * 3.0347 ≤ q^3 := by nlinarith [h2lo, hqlo, hq0]
  have h3hi : q^3 ≤ (9.2125 : ℝ) * 3.0352 := by nlinarith [h2hi, hqhi, hq0]
  have h4lo : (9.2094 : ℝ) * 9.2094 ≤ q^4 := by nlinarith [h2lo, hq0]
  have h4hi : q^4 ≤ (9.2125 : ℝ) * 9.2125 := by
    nlinarith [h2hi, hq0, sq_nonneg q]
  have h5lo : (9.2094 : ℝ) * 9.2094 * 3.0347 ≤ q^5 := by
    nlinarith [h4lo, hqlo, hq0]
  have h5hi : q^5 ≤ (9.2125 : ℝ) * 9.2125 * 3.0352 := by
    nlinarith [h4hi, hqhi, hq0, sq_nonneg (q^2)]
  have hDpos : (0 : ℝ) < D := by
    rw [hD]
    nlinarith [hqlo, hqhi, h2lo, h2hi, h3lo, h3hi, h4lo, h4hi]
  have key1 : (4.64 : ℝ) * D ≤ -2 * N := by
    rw [hN, hD]
    nlinarith [hqlo, hqhi, h2lo, h2hi, h3lo, h3hi, h4lo, h4hi, h5lo, h5hi]
  have key2 : (-2 : ℝ) * N ≤ 4.66 * D := by
    rw [hN, hD]
    nlinarith [hqlo, hqhi, h2lo, h2hi, h3lo, h3hi, h4lo, h4hi, h5lo, h5hi]
  have hval : -N / D - N / D = (-2 * N) / D := by ring
  rw [hval, abs_le]
  constructor
  · have h464 : (4.64 : ℝ) ≤ (-2 * N) / D := (le_div_iff₀ hDpos).mpr key1
    linarith
  · have h466 : (-2 * N) / D ≤ (4.66 : ℝ) := (div_le_iff₀ hDpos).mpr key2
    linarith

/-- The correction leaves 0.99 and 0.01 unchanged, so the d-prime at
these rates is exactly the difference of the two quantile
approximations. -/
theorem dPrime_99_01_eq :
    calculateDPrime (99/100) (1/100) =
      inverseNormalCDF ((99/100 : ℚ) : ℝ) -
        inverseNormalCDF ((1/100 : ℚ) : ℝ) := by
  unfold calculateDPrime
  rw [show correctRate (99/100) = 99/100 by norm_num [correctRate],
    show correctRate (1/100) = 1/100 by norm_num [correctRate]]

/-- C8: for every response list whose computed hit rate is exactly 0.99
and false-alarm rate exactly 0.01 (values unchanged by the extreme-rate
correction), `calculateAttentionMetrics` returns `dPrime` equal to the
implemented rational approximation of `Φ⁻¹(0.99) - Φ⁻¹(0.01)`, and this
value lies within 0.01 of 4.65. -/
theorem C8_dprime_sanity (responses : List AttentionResponse)
    (h1 : (calculateAttentionMetrics responses).hitRate = 99/100)
    (h2 : (calculateAttentionMetrics responses).falseAlarmRate = 1/100) :
    (calculateAttentionMetrics responses).dPrime =
      inverseNormalCDF ((99/100 : ℚ) : ℝ) -
        inverseNormalCDF ((1/100 : ℚ) : ℝ) ∧
    |(calculateAttentionMetrics responses).dPrime - 4.65| ≤ 0.01 := by
  have hne : responses ≠ [] := by
    intro he
    rw [he] at h1
    simp [calculateAttentionMetrics] at h1
    exact absurd h1 (by norm_num)
  simp only [calculateAttentionMetrics, if_neg hne] at h1 h2 ⊢
  rw [h1, h2]
  exact ⟨dPrime_99_01_eq, dPrime_99_01_bound⟩

/-- The C8 scenario: 100 target trials with 99 responses and one miss,
100 non-target trials with one false alarm — hit rate exactly 0.99,
false-alarm rate exactly 0.01. -/
def dPrimeScenario : List AttentionResponse :=
  List.replicate 99
    { stimulusTimestamp := 0, responseTimestamp := some 1, isTarget := true,
      responded := true, reactionTime := some 1 } ++
  ({ stimulusTimestamp := 0, responseTimestamp := none, isTarget := true,
      responded := false, reactionTime := none } ::
    (List.replicate 99
      { stimulusTimestamp := 0, responseTimestamp := none, isTarget := false,
        responded := false, reactionTime := none } ++
      [{ stimulusTimestamp := 0, responseTimestamp := some 1,
         isTarget := false, responded := true, reactionTime := some 1 }]))

/-- C8 witness: the 200-trial scenario has hit rate 99/100 and
false-alarm rate 1/100, and its d-prime is the approximated
`Φ⁻¹(0.99) - Φ⁻¹(0.01)`, within 0.01 of 4.65. -/
theorem C8_witness :
    (calculateAttentionMetrics dPrimeScenario).hitRate = 99/100 ∧
    (calculateAttentionMetrics dPrimeScenario).falseAlarmRate = 1/100 ∧
    ((calculateAttentionMetrics dPrimeScenario).dPrime =
      inverseNormalCDF ((99/100 : ℚ) : ℝ) -
        inverseNormalCDF ((1/100 : ℚ) : ℝ) ∧
     |(calculateAttentionMetrics dPrimeScenario).dPrime - 4.65| ≤ 0.01) := by
  have h1 : (calculateAttentionMetrics dPrimeScenario).hitRate = 99/100 := by
    simp [calculateAttentionMetrics, dPrimeScenario, List.filter_append,
      List.filter_replicate]
  have h2 : (calculateAttentionMetrics dPrimeScenario).falseAlarmRate =
      1/100 := by
    simp [calculateAttentionMetrics, dPrimeScenario, List.filter_append,
      List.filter_replicate]
  exact ⟨h1, h2, C8_dprime_sanity dPrimeScenario h1 h2⟩

end PilotTrainer
